import Mathlib

/-
Verification of the AESOP-Lite event PSOC DAQ firmware (src/DAQ.cydsn/main.c)
against its natural-language specification.  The definitions below are a
shallow embedding of the C code: machine integers are modelled as Nat/Int
with explicit reductions modulo 2^w where the C performs fixed-width
arithmetic, the byte streams read from the tracker UART are modelled as
functions from read position to byte value, and the global mutable state
touched by each routine is passed and returned explicitly.
-/

namespace AesopLiteDAQ

/- Constants from main.c. -/

def MXERR : Nat := 64
def TOFMAX_EVT : Nat := 64
def MAX_DATA_OUT : Nat := 256
def MAX_TKR_BOARDS : Nat := 8
def MAX_TKR_BOARD_BYTES : Nat := 203
def TKRHOUSE_LEN : Nat := 70
def TKR_READ_TIMEOUT : Nat := 31

def ERR_CMD_IGNORE : Nat := 5
def ERR_TKR_READ_TIMEOUT : Nat := 6
def ERR_TKR_BAD_ID : Nat := 7
def ERR_TKR_BAD_LENGTH : Nat := 8
def ERR_TKR_BAD_ECHO : Nat := 9
def ERR_TKR_BAD_FPGA : Nat := 11
def ERR_TKR_BAD_TRAILER : Nat := 12
def ERR_TKR_BAD_NDATA : Nat := 13
def ERR_TKR_NUM_BOARDS : Nat := 15
def ERR_TKR_BAD_BOARD_ID : Nat := 16
def ERR_TKR_BOARD_SHORT : Nat := 17
def ERR_TKR_TOO_BIG : Nat := 26
def ERR_TKR_LYR_ORDER : Nat := 27
def ERR_TRK_WRONG_DATA_TYPE : Nat := 28
def ERR_BAD_CMD : Nat := 20

def TKR_EVT_DATA : Nat := 0xD3
def TKR_HOUSE_DATA : Nat := 0xC7
def TKR_ECHO_DATA : Nat := 0xF1

/- Error log (struct Error errors[MXERR] together with nErrors), modelled as a
list of records whose length is the value of nErrors. -/

structure ErrorRec where
  errorCode : Nat
  value0 : Nat
  value1 : Nat
deriving DecidableEq

/-- Embedding of addError: append a record only while the log holds fewer
than MXERR entries; otherwise the new error is silently dropped. -/
def addError (errs : List ErrorRec) (code val1 val2 : Nat) : List ErrorRec :=
  if errs.length < MXERR then errs ++ [⟨code, val1, val2⟩] else errs

/- TOF circular data buffers (struct TOF).  The three arrays of size
TOFMAX_EVT are modelled as functions from index to stored value; ptr is the
write cursor (a uint8 kept below TOFMAX_EVT by the interrupt handlers). -/

structure TOFBuf where
  shiftReg : Nat → Nat
  clkCnt : Nat → Nat
  filled : Nat → Bool
  ptr : Nat

/-- Backward-scan index of the correlation loops in main():
iptr = ptr - i - 1 computed in int arithmetic, then wrapped by adding
TOFMAX_EVT when negative. -/
def tofScanIdx (ptr i : Nat) : Nat :=
  let iptr : Int := (ptr : Int) - (i : Int) - 1
  (if iptr < 0 then iptr + (TOFMAX_EVT : Int) else iptr).toNat

/-- Generic backward scan over a TOF buffer: visit indices
tofScanIdx ptr 0, tofScanIdx ptr 1, ... and keep those passing the filter,
exactly as the for-loops over i = 0 .. TOFMAX_EVT-1 in main() do. -/
def tofScan (ptr : Nat) (keep : Nat → Bool) : List Nat :=
  (List.range TOFMAX_EVT).filterMap fun i =>
    if keep (tofScanIdx ptr i) then some (tofScanIdx ptr i) else none

/-- Channel-A candidate collection (main.c lines 1468-1476): filled entries
whose clock tag satisfies timeStamp16 == clkCnt or timeStamp16 == clkCnt+1. -/
def tofCandidatesA (A : TOFBuf) (T : Nat) : List Nat :=
  tofScan A.ptr fun p => A.filled p && ((T == A.clkCnt p) || (T == A.clkCnt p + 1))

/-- Channel-B candidate filter (main.c line 1488): filled entries whose clock
tag satisfies clkCnt == timeStamp16 or clkCnt == timeStamp16 - 1, the
subtraction performed in int arithmetic after integer promotion. -/
def tofCandidatesB (B : TOFBuf) (T : Nat) : List Nat :=
  tofScan B.ptr fun p =>
    B.filled p && ((B.clkCnt p == T) || decide ((B.clkCnt p : Int) = (T : Int) - 1))

/-- Full time of one channel in 10 ps units: referenceCount * 8333 + stopCount
(main.c lines 1492 and 1500). -/
def fullTimeRef (ref stp : Nat) : Int := (ref : Int) * 8333 + (stp : Int)

/-- Signed time difference of one (A,B) pair with the reference-clock
rollover handling of main.c lines 1502-1509. -/
def tofPairDt (refA stopA refB stopB : Nat) : Int :=
  if refA > 49152 ∧ refB < 16384 then
    fullTimeRef refB stopB - (fullTimeRef refA stopA - 500000000)
  else if refB > 49152 ∧ refA < 16384 then
    (fullTimeRef refB stopB - 500000000) - fullTimeRef refA stopA
  else
    fullTimeRef refB stopB - fullTimeRef refA stopA

/-- Low 16 bits of a TOF shift-register word: the stop-time count. -/
def stopOf (v : Nat) : Nat := v % 65536

/-- High 16 bits of a TOF shift-register word: the reference-clock count. -/
def refOf (v : Nat) : Nat := v / 65536 % 65536

/-- The signed time differences of all (A,B) candidate pairs whose clock tags
differ by at most one tick, in the order the nested loops of main.c
lines 1483-1518 visit them (outer loop channel B, inner loop the recorded
channel-A candidates). -/
def tofCorrPairs (A B : TOFBuf) (T : Nat) : List Int :=
  (tofCandidatesB B T).flatMap fun q =>
    (tofCandidatesA A T).filterMap fun p =>
      if |(A.clkCnt p : Int) - (B.clkCnt q : Int)| ≤ 1 then
        some (tofPairDt (refOf (A.shiftReg p)) (stopOf (A.shiftReg p))
                        (refOf (B.shiftReg q)) (stopOf (B.shiftReg q)))
      else none

/-- One update of the running minimum dtmin (main.c lines 1510-1511):
replace dtmin only when the new difference is strictly smaller in absolute
value. -/
def corrStep (dtmin dt : Int) : Int := if |dt| < |dtmin| then dt else dtmin

/-- The time-of-flight value dtmin produced by the correlation scan, starting
from the initial value 32767 (main.c line 1481). -/
def tofCorrDtmin (A B : TOFBuf) (T : Nat) : Int :=
  (tofCorrPairs A B T).foldl corrStep 32767

/- Helper lemmas about the running-minimum fold of the correlation scan. -/

theorem corrFold_abs_le_init (l : List Int) (m : Int) :
    |l.foldl corrStep m| ≤ |m| := by
  induction l generalizing m with
  | nil => simp
  | cons d t ih =>
    refine le_trans (ih (corrStep m d)) ?_
    unfold corrStep
    split
    · next h => exact le_of_lt h
    · exact le_refl _

theorem corrFold_mem_lt (l : List Int) (m : Int) :
    l.foldl corrStep m = m ∨
      (l.foldl corrStep m ∈ l ∧ |l.foldl corrStep m| < |m|) := by
  induction l generalizing m with
  | nil => left; rfl
  | cons d t ih =>
    simp only [List.foldl_cons]
    by_cases hlt : |d| < |m|
    · have hstep : corrStep m d = d := by unfold corrStep; rw [if_pos hlt]
      rw [hstep]
      rcases ih d with h | ⟨hmem, hlt2⟩
      · right
        rw [h]
        exact ⟨List.mem_cons_self _ _, hlt⟩
      · right
        exact ⟨List.mem_cons_of_mem _ hmem, lt_trans hlt2 hlt⟩
    · have hstep : corrStep m d = m := by unfold corrStep; rw [if_neg hlt]
      rw [hstep]
      rcases ih m with h | ⟨hmem, hlt2⟩
      · left; exact h
      · right; exact ⟨List.mem_cons_of_mem _ hmem, hlt2⟩

theorem corrFold_le_of_mem (l : List Int) :
    ∀ m d, d ∈ l → |l.foldl corrStep m| ≤ |d| := by
  induction l with
  | nil => intro m d hd; cases hd
  | cons a t ih =>
    intro m d hd
    simp only [List.foldl_cons]
    rcases List.mem_cons.mp hd with rfl | h
    · refine le_trans (corrFold_abs_le_init t _) ?_
      unfold corrStep
      split
      · exact le_refl _
      · next hc => exact le_of_not_lt hc
    · exact ih _ d h

/- Concrete buffer states used to settle the correlator claims. -/

/-- Counterexample state for C1: channel A holds one filled sample with
reference count 100 (shift register 100 * 65536 = 6553600) and clock tag
equal to the trigger tag 1000; channel B holds one filled sample with
shift register 0 and the same clock tag.  The unique candidate pair has
time difference 0 - 833300 = -833300. -/
def cexTofA : TOFBuf :=
  ⟨fun n => if n = 0 then 6553600 else 0, fun n => if n = 0 then 1000 else 0,
   fun n => n == 0, 1⟩

/-- Channel-B half of the C1 counterexample state. -/
def cexTofB : TOFBuf :=
  ⟨fun _ => 0, fun n => if n = 0 then 1000 else 0, fun n => n == 0, 1⟩

/-- C1 counterexample: with one filled candidate in each channel at the
trigger tag, the unique candidate pair has signed time difference -833300,
yet the correlation scan reports the sentinel 32767 instead of that
globally minimal difference, because 32767 is also the initial value of the
running minimum and only strictly smaller absolute differences can replace
it.  This refutes the claim that the reported time-of-flight is the signed
difference of the pair with globally minimum absolute difference, and that
32767 is reported only when no pair exists. -/
theorem tof_correlator_claim_cex :
    cexTofA.filled 0 = true ∧ cexTofA.clkCnt 0 = 1000 ∧
    cexTofB.filled 0 = true ∧ cexTofB.clkCnt 0 = 1000 ∧
    tofCorrPairs cexTofA cexTofB 1000 = [-833300] ∧
    tofCorrDtmin cexTofA cexTofB 1000 = 32767 ∧
    (32767 : Int) ≠ -833300 := by decide

/-- C1 (amended): the correlation scan reports 32767 when no candidate pair
exists; a candidate pair's signed difference can be reported only when its
absolute value is strictly below 32767 (the initial running minimum), so
when every pair's absolute difference is at least 32767 the sentinel 32767
is reported; and the reported value's absolute value is a lower bound of
every pair's absolute difference, so any reported non-sentinel difference
attains the global minimum. -/
theorem tof_correlator_min (A B : TOFBuf) (T : Nat) :
    (tofCorrPairs A B T = [] → tofCorrDtmin A B T = 32767) ∧
    (tofCorrDtmin A B T = 32767 ∨
      (tofCorrDtmin A B T ∈ tofCorrPairs A B T ∧ |tofCorrDtmin A B T| < 32767)) ∧
    ((∀ d ∈ tofCorrPairs A B T, 32767 ≤ |d|) → tofCorrDtmin A B T = 32767) ∧
    ∀ d ∈ tofCorrPairs A B T, |tofCorrDtmin A B T| ≤ |d| := by
  have habs : |(32767 : Int)| = 32767 := by decide
  have hmem : tofCorrDtmin A B T = 32767 ∨
      (tofCorrDtmin A B T ∈ tofCorrPairs A B T ∧ |tofCorrDtmin A B T| < 32767) := by
    unfold tofCorrDtmin
    rcases corrFold_mem_lt (tofCorrPairs A B T) 32767 with h | ⟨h1, h2⟩
    · left; exact h
    · right
      rw [habs] at h2
      exact ⟨h1, h2⟩
  refine ⟨?_, hmem, ?_, ?_⟩
  · intro h; unfold tofCorrDtmin; rw [h]; rfl
  · intro hall
    rcases hmem with h | ⟨h1, h2⟩
    · exact h
    · exact absurd (hall _ h1) (by omega)
  · unfold tofCorrDtmin; intro d hd; exact corrFold_le_of_mem _ _ d hd

/-- Channel-A state for the C1 witness: one filled sample of full time 5,
clock tag 7. -/
def wtofA : TOFBuf :=
  ⟨fun n => if n = 0 then 5 else 0, fun n => if n = 0 then 7 else 0,
   fun n => n == 0, 1⟩

/-- Channel-B state for the C1 witness: one filled sample of full time 0,
clock tag 7. -/
def wtofB : TOFBuf :=
  ⟨fun _ => 0, fun n => if n = 0 then 7 else 0, fun n => n == 0, 1⟩

/-- Witness for tof_correlator_min at a concrete buffer state whose unique
candidate pair has signed difference -5. -/
theorem tof_correlator_min_witness :
    |tofCorrDtmin wtofA wtofB 7| ≤ |(-5 : Int)| :=
  (tof_correlator_min wtofA wtofB 7).2.2.2 (-5) (by decide)

/- Membership characterisation of the backward candidate scans. -/

theorem tofScanIdx_lt (ptr i : Nat) (hptr : ptr < TOFMAX_EVT) :
    tofScanIdx ptr i < TOFMAX_EVT := by
  simp only [tofScanIdx, TOFMAX_EVT] at *
  split <;> omega

theorem tofScanIdx_surj (ptr p : Nat) (hptr : ptr < TOFMAX_EVT) (hp : p < TOFMAX_EVT) :
    ∃ i, i < TOFMAX_EVT ∧ tofScanIdx ptr i = p := by
  simp only [TOFMAX_EVT] at *
  refine ⟨if p < ptr then ptr - 1 - p else ptr + 63 - p, ?_, ?_⟩
  · split <;> omega
  · simp only [tofScanIdx, TOFMAX_EVT]
    split <;> split <;> omega

theorem tofScan_mem (ptr : Nat) (keep : Nat → Bool) (hptr : ptr < TOFMAX_EVT) (p : Nat) :
    p ∈ tofScan ptr keep ↔ p < TOFMAX_EVT ∧ keep p = true := by
  unfold tofScan
  rw [List.mem_filterMap]
  constructor
  · rintro ⟨i, _, hsome⟩
    by_cases hk : keep (tofScanIdx ptr i) = true
    · rw [if_pos hk] at hsome
      obtain rfl := Option.some.inj hsome
      exact ⟨tofScanIdx_lt ptr i hptr, hk⟩
    · rw [if_neg hk] at hsome
      cases hsome
  · rintro ⟨hp, hk⟩
    obtain ⟨i, hi, hidx⟩ := tofScanIdx_surj ptr p hptr hp
    refine ⟨i, List.mem_range.mpr hi, ?_⟩
    rw [hidx, if_pos hk]

/-- Buffer whose single filled entry carries clock tag 11 = 10 + 1,
one tick newer than the trigger tag 10. -/
def cexTagAbove : TOFBuf :=
  ⟨fun _ => 0, fun n => if n = 0 then 11 else 0, fun n => n == 0, 1⟩

/-- Buffer whose single filled entry carries clock tag 9 = 10 - 1,
one tick older than the trigger tag 10. -/
def cexTagBelow : TOFBuf :=
  ⟨fun _ => 0, fun n => if n = 0 then 9 else 0, fun n => n == 0, 1⟩

/-- C2 counterexample: with trigger tag T = 10, a filled channel-A entry
with clock tag T + 1 = 11 is NOT collected by the channel-A scan, while a
filled entry with clock tag T - 1 = 9 IS collected.  This refutes the claim
that the channel-A candidate set consists of the entries tagged T or T+1:
the code's test (T == clkCnt || T == clkCnt + 1) selects tags T and T-1. -/
theorem tof_candidates_claim_cex :
    cexTagAbove.filled 0 = true ∧ cexTagAbove.clkCnt 0 = 10 + 1 ∧
    tofCandidatesA cexTagAbove 10 = [] ∧
    cexTagBelow.clkCnt 0 + 1 = 10 ∧
    tofCandidatesA cexTagBelow 10 = [0] := by decide

/-- C2 (amended): for cursors inside the 64-entry buffers, the channel-A
candidate set is exactly the set of filled entries whose clock tag equals
T or T - 1, and the channel-B candidate set is exactly the same: the filled
entries whose clock tag equals T or T - 1; all other entries are ignored. -/
theorem tof_candidates_sets (A B : TOFBuf) (T : Nat)
    (hA : A.ptr < TOFMAX_EVT) (hB : B.ptr < TOFMAX_EVT) :
    (∀ p, p ∈ tofCandidatesA A T ↔
       p < TOFMAX_EVT ∧ A.filled p = true ∧ (A.clkCnt p = T ∨ A.clkCnt p + 1 = T)) ∧
    (∀ q, q ∈ tofCandidatesB B T ↔
       q < TOFMAX_EVT ∧ B.filled q = true ∧ (B.clkCnt q = T ∨ B.clkCnt q + 1 = T)) := by
  constructor
  · intro p
    rw [tofCandidatesA, tofScan_mem _ _ hA]
    simp only [Bool.and_eq_true, Bool.or_eq_true, beq_iff_eq]
    constructor
    · rintro ⟨h64, hf, h⟩; exact ⟨h64, hf, by omega⟩
    · rintro ⟨h64, hf, h⟩; exact ⟨h64, hf, by omega⟩
  · intro q
    rw [tofCandidatesB, tofScan_mem _ _ hB]
    simp only [Bool.and_eq_true, Bool.or_eq_true, beq_iff_eq, decide_eq_true_eq]
    constructor
    · rintro ⟨h64, hf, h⟩; exact ⟨h64, hf, by omega⟩
    · rintro ⟨h64, hf, h⟩; exact ⟨h64, hf, by omega⟩

/-- Buffer state for the C2 witness: one filled entry with clock tag 5. -/
def wcand : TOFBuf :=
  ⟨fun _ => 0, fun n => if n = 0 then 5 else 0, fun n => n == 0, 1⟩

/-- Witness for tof_candidates_sets at a concrete buffer state. -/
theorem tof_candidates_sets_witness :
    0 ∈ tofCandidatesA wcand 5 ↔
      0 < TOFMAX_EVT ∧ wcand.filled 0 = true ∧
        (wcand.clkCnt 0 = 5 ∨ wcand.clkCnt 0 + 1 = 5) :=
  (tof_candidates_sets wcand wcand 5 (by decide) (by decide)).1 0

/-- C5: the full channel times entering the correlation are
referenceCount * 8333 + stopCount, and the rollover offset 500000000 is
subtracted from the full time of the channel whose reference count exceeds
49152 when the other channel's reference count is below 16384, before the
difference timeB - timeA is formed; in every other case the plain
difference is used. -/
theorem tof_time_rollover (refA stopA refB stopB : Nat) :
    fullTimeRef refA stopA = (refA : Int) * 8333 + (stopA : Int) ∧
    (refA > 49152 → refB < 16384 →
      tofPairDt refA stopA refB stopB =
        fullTimeRef refB stopB - (fullTimeRef refA stopA - 500000000)) ∧
    (refB > 49152 → refA < 16384 →
      tofPairDt refA stopA refB stopB =
        (fullTimeRef refB stopB - 500000000) - fullTimeRef refA stopA) ∧
    (¬(refA > 49152 ∧ refB < 16384) → ¬(refB > 49152 ∧ refA < 16384) →
      tofPairDt refA stopA refB stopB =
        fullTimeRef refB stopB - fullTimeRef refA stopA) := by
  refine ⟨rfl, ?_, ?_, ?_⟩
  · intro h1 h2
    unfold tofPairDt
    rw [if_pos ⟨h1, h2⟩]
  · intro h1 h2
    unfold tofPairDt
    rw [if_neg (by omega), if_pos ⟨h1, h2⟩]
  · intro h1 h2
    unfold tofPairDt
    rw [if_neg h1, if_neg h2]

/-- Witness for tof_time_rollover: channel A rolled over (reference count
50000 > 49152) while channel B is just past a reset (reference count 0). -/
theorem tof_time_rollover_witness :
    tofPairDt 50000 0 0 0 = fullTimeRef 0 0 - (fullTimeRef 50000 0 - 500000000) :=
  (tof_time_rollover 50000 0 0 0).2.1 (by decide) (by decide)

/-- Embedding of the command gate of main.c line 1854: while the trigger is
enabled, a completed command is dispatched only when its code is 0x3D
(return trigger-enable status) or 0x44 (end run). -/
def commandGate (command : Nat) (trigEnabled : Bool) : Bool :=
  (command == 0x3D) || (command == 0x44) || (!trigEnabled)

/-- C3 evaluation: with the trigger enabled, the disable-trigger command
0x3B is NOT honored by the gate (it falls into the CommandIgnored branch,
which appends exactly one ERR_CMD_IGNORE record and produces no data), while
the commands that ARE honored are 0x3D, the trigger-STATUS read, and 0x44,
end run.  The code's own comment says the gate should exempt the disable
trigger command, so this is a slip in the code ('\x3D' written for '\x3B'). -/
theorem command_gate_bug :
    commandGate 0x3B true = false ∧
    commandGate 0x3D true = true ∧
    commandGate 0x44 true = true ∧
    addError [] ERR_CMD_IGNORE 0x3B 0 = [⟨ERR_CMD_IGNORE, 0x3B, 0⟩] := by decide

/-- Embedding of the index computation of command 0x35 (read most recent TOF
event, main.c lines 2220-2221 and 2244-2245): idx is a uint8 holding
ptr - 1 computed modulo 256, and the subsequent wrap test (idx < 0) can
never fire because idx is unsigned. -/
def tofReadIdx (ptr : Nat) : Nat :=
  let idx := (ptr + 256 - 1) % 256
  if idx < 0 then idx + TOFMAX_EVT else idx

/-- C10 evaluation: when the write cursor is 0, the most-recent-event index
becomes 255, which is outside the 64-entry capacity of the filled, shiftReg
and clkCnt arrays, so the subsequent array reads are out of bounds; the
dead (idx < 0) wrap branch shows the intended index was 63. -/
theorem tof_read_recent_oob :
    tofReadIdx 0 = 255 ∧ TOFMAX_EVT ≤ tofReadIdx 0 ∧ tofReadIdx 1 = 0 := by decide

/-- Embedding of the error-log drain command 0x03 (main.c lines 1902-1917):
with an empty log the fixed 3-byte sentinel 0x00 0xEE 0xFF is returned and
the log is left alone; otherwise the (code, value0, value1) triples of all
recorded errors are returned and the count is reset to zero. -/
def drainCmd (errs : List ErrorRec) : List Nat × List ErrorRec :=
  if errs.length = 0 then ([0x00, 0xEE, 0xFF], errs)
  else ((errs.map fun e => [e.errorCode, e.value0, e.value1]).flatten, [])

theorem drain_join_length (errs : List ErrorRec) :
    ((errs.map fun e => [e.errorCode, e.value0, e.value1]).flatten).length =
      3 * errs.length := by
  induction errs with
  | nil => rfl
  | cons e t ih =>
    simp [ih]
    omega

/-- C8: draining a non-empty error log returns the 3n bytes of the recorded
(code, value0, value1) triples and resets the log, so a second drain with no
errors added in between returns exactly the sentinel 0x00 0xEE 0xFF. -/
theorem drain_twice (errs : List ErrorRec) (h : 0 < errs.length) :
    (drainCmd errs).1 = (errs.map fun e => [e.errorCode, e.value0, e.value1]).flatten ∧
    (drainCmd errs).1.length = 3 * errs.length ∧
    (drainCmd errs).2 = [] ∧
    drainCmd (drainCmd errs).2 = ([0x00, 0xEE, 0xFF], []) := by
  have hne : ¬ errs.length = 0 := by omega
  unfold drainCmd
  rw [if_neg hne]
  exact ⟨rfl, drain_join_length errs, rfl, rfl⟩

/-- Witness for drain_twice on a log holding one recorded error. -/
theorem drain_twice_witness :
    drainCmd (drainCmd [ErrorRec.mk 1 2 3]).2 = ([0x00, 0xEE, 0xFF], []) :=
  (drain_twice [ErrorRec.mk 1 2 3] (by decide)).2.2.2

/- Triplicated command-frame validation (main.c lines 1771-1807). -/

/-- The 256-entry ASCII-to-nibble translation table code[], as initialised in
main(): hex digits (case-insensitive A-F) map to their value, every other
character maps to 0. -/
def nibbleCode (c : Nat) : Nat :=
  if c = 49 then 1 else if c = 50 then 2 else if c = 51 then 3 else if c = 52 then 4
  else if c = 53 then 5 else if c = 54 then 6 else if c = 55 then 7 else if c = 56 then 8
  else if c = 57 then 9 else if c = 65 then 10 else if c = 97 then 10
  else if c = 66 then 11 else if c = 98 then 11 else if c = 67 then 12 else if c = 99 then 12
  else if c = 68 then 13 else if c = 100 then 13 else if c = 69 then 14 else if c = 101 then 14
  else if c = 70 then 15 else if c = 102 then 15 else 0

/-- The 9-byte copy of the 27-byte receive buffer starting at a given offset
(offset 0, 9 or 18). -/
def copy9 (buffer : Nat → Nat) (off : Nat) : List Nat :=
  (List.range 9).map fun i => buffer (i + off)

/-- Embedding of the triplicated-frame validation: first check that all three
copies agree, else that copies 1 and 2 agree, else that copies 1 and 3
agree, else scan copies 2 and 3; on their first mismatching byte a
BadCommand error is logged and the frame is rejected, while if they agree
copy 2 is written over the first nine buffer bytes.  The result is the
badCMD flag, the decoded 9-byte frame, and the error log. -/
def tripleCheck (buffer : Nat → Nat) (errs : List ErrorRec) :
    Bool × List Nat × List ErrorRec :=
  if (List.range 9).all
       (fun i => (buffer i == buffer (i + 9)) && (buffer i == buffer (i + 18))) then
    (false, copy9 buffer 0, errs)
  else if (List.range 9).all (fun i => buffer i == buffer (i + 9)) then
    (false, copy9 buffer 0, errs)
  else if (List.range 9).all (fun i => buffer i == buffer (i + 18)) then
    (false, copy9 buffer 0, errs)
  else
    match (List.range 9).find? (fun i => buffer (i + 9) != buffer (i + 18)) with
    | some i =>
        (true, copy9 buffer 0, addError errs ERR_BAD_CMD (nibbleCode (buffer (i + 9))) i)
    | none => (false, copy9 buffer 9, errs)

theorem map_range_eq_iff (f g : Nat → Nat) (l : List Nat) :
    ((l.all fun i => f i == g i) = true) ↔ l.map f = l.map g := by
  induction l with
  | nil => simp
  | cons a t ih => simp [ih]

theorem copy9_zero (buffer : Nat → Nat) :
    copy9 buffer 0 = (List.range 9).map buffer := by
  simp [copy9]

theorem all_eq_copy9 (buffer : Nat → Nat) (b : Nat) :
    ((List.range 9).all fun i => buffer i == buffer (i + b)) = true ↔
      copy9 buffer 0 = copy9 buffer b := by
  rw [copy9_zero]
  unfold copy9
  exact map_range_eq_iff _ _ _

theorem all_eq_copy9_23 (buffer : Nat → Nat) :
    ((List.range 9).all fun i => buffer (i + 9) == buffer (i + 18)) = true ↔
      copy9 buffer 9 = copy9 buffer 18 := by
  unfold copy9
  exact map_range_eq_iff _ _ _

theorem all3_iff (buffer : Nat → Nat) :
    ((List.range 9).all
       (fun i => (buffer i == buffer (i + 9)) && (buffer i == buffer (i + 18)))) = true ↔
      copy9 buffer 0 = copy9 buffer 9 ∧ copy9 buffer 0 = copy9 buffer 18 := by
  rw [← all_eq_copy9 buffer 9, ← all_eq_copy9 buffer 18]
  simp only [List.all_eq_true, Bool.and_eq_true]
  constructor
  · intro h
    exact ⟨fun i hi => (h i hi).1, fun i hi => (h i hi).2⟩
  · intro h i hi
    exact ⟨h.1 i hi, h.2 i hi⟩

theorem find23_none_iff (buffer : Nat → Nat) :
    ((List.range 9).find? (fun i => buffer (i + 9) != buffer (i + 18)) = none) ↔
      copy9 buffer 9 = copy9 buffer 18 := by
  rw [List.find?_eq_none, ← all_eq_copy9_23]
  simp [List.all_eq_true]

/-- C4: a 27-byte command frame is accepted exactly when at least two of the
three 9-byte copies agree (equivalently, at least one of the three pairwise
comparisons succeeds); the decoded frame is the agreeing copy (copy 1 when
copy 1 matches copy 2 or copy 3, copy 2 when only copies 2 and 3 match); an
accepted frame logs no error; and when the three copies are pairwise
distinct the frame is rejected and exactly one BadCommand record is
appended to the error log. -/
theorem triple_vote (buffer : Nat → Nat) (errs : List ErrorRec)
    (hfull : errs.length < MXERR) :
    ((tripleCheck buffer errs).1 = false ↔
       copy9 buffer 0 = copy9 buffer 9 ∨ copy9 buffer 0 = copy9 buffer 18 ∨
         copy9 buffer 9 = copy9 buffer 18) ∧
    ((tripleCheck buffer errs).1 = false → (tripleCheck buffer errs).2.2 = errs) ∧
    (copy9 buffer 0 = copy9 buffer 9 ∨ copy9 buffer 0 = copy9 buffer 18 →
       (tripleCheck buffer errs).2.1 = copy9 buffer 0) ∧
    (copy9 buffer 0 ≠ copy9 buffer 9 → copy9 buffer 0 ≠ copy9 buffer 18 →
       copy9 buffer 9 = copy9 buffer 18 →
       (tripleCheck buffer errs).2.1 = copy9 buffer 9) ∧
    (copy9 buffer 0 ≠ copy9 buffer 9 → copy9 buffer 0 ≠ copy9 buffer 18 →
       copy9 buffer 9 ≠ copy9 buffer 18 →
       (tripleCheck buffer errs).1 = true ∧
         ∃ v i, (tripleCheck buffer errs).2.2 = errs ++ [⟨ERR_BAD_CMD, v, i⟩]) := by
  by_cases h12 : copy9 buffer 0 = copy9 buffer 9
  · have hc12 : ((List.range 9).all fun i => buffer i == buffer (i + 9)) = true :=
      (all_eq_copy9 buffer 9).mpr h12
    have htc : tripleCheck buffer errs = (false, copy9 buffer 0, errs) := by
      by_cases h13 : copy9 buffer 0 = copy9 buffer 18
      · have hc3 := (all3_iff buffer).mpr ⟨h12, h13⟩
        unfold tripleCheck
        rw [if_pos hc3]
      · have hc3 : ¬ ((List.range 9).all
            (fun i => (buffer i == buffer (i + 9)) && (buffer i == buffer (i + 18)))) = true :=
          fun hc => h13 ((all3_iff buffer).mp hc).2
        unfold tripleCheck
        rw [if_neg hc3, if_pos hc12]
    rw [htc]
    refine ⟨by simp [h12], fun _ => rfl, fun _ => rfl, ?_, ?_⟩
    · intro h12' _ _; exact absurd h12 h12'
    · intro h12' _ _; exact absurd h12 h12'
  · have hc12 : ¬ ((List.range 9).all fun i => buffer i == buffer (i + 9)) = true :=
      fun hc => h12 ((all_eq_copy9 buffer 9).mp hc)
    have hc3 : ¬ ((List.range 9).all
        (fun i => (buffer i == buffer (i + 9)) && (buffer i == buffer (i + 18)))) = true :=
      fun hc => h12 ((all3_iff buffer).mp hc).1
    by_cases h13 : copy9 buffer 0 = copy9 buffer 18
    · have hc13 : ((List.range 9).all fun i => buffer i == buffer (i + 18)) = true :=
        (all_eq_copy9 buffer 18).mpr h13
      have htc : tripleCheck buffer errs = (false, copy9 buffer 0, errs) := by
        unfold tripleCheck
        rw [if_neg hc3, if_neg hc12, if_pos hc13]
      rw [htc]
      refine ⟨by simp [h13], fun _ => rfl, fun _ => rfl, ?_, ?_⟩
      · intro _ h13' _; exact absurd h13 h13'
      · intro _ h13' _; exact absurd h13 h13'
    · have hc13 : ¬ ((List.range 9).all fun i => buffer i == buffer (i + 18)) = true :=
        fun hc => h13 ((all_eq_copy9 buffer 18).mp hc)
      by_cases h23 : copy9 buffer 9 = copy9 buffer 18
      · have hfind : ((List.range 9).find? fun i => buffer (i + 9) != buffer (i + 18)) = none :=
          (find23_none_iff buffer).mpr h23
        have htc : tripleCheck buffer errs = (false, copy9 buffer 9, errs) := by
          unfold tripleCheck
          rw [if_neg hc3, if_neg hc12, if_neg hc13, hfind]
        rw [htc]
        refine ⟨by simp [h23], fun _ => rfl, ?_, fun _ _ _ => rfl, ?_⟩
        · intro h; rcases h with h | h
          · exact absurd h h12
          · exact absurd h h13
        · intro _ _ h23'; exact absurd h23 h23'
      · have hfind : ((List.range 9).find? fun i => buffer (i + 9) != buffer (i + 18)) ≠ none :=
          fun hn => h23 ((find23_none_iff buffer).mp hn)
        obtain ⟨i, hfind⟩ :=
          Option.ne_none_iff_exists'.mp hfind
        have htc : tripleCheck buffer errs =
            (true, copy9 buffer 0,
              addError errs ERR_BAD_CMD (nibbleCode (buffer (i + 9))) i) := by
          unfold tripleCheck
          rw [if_neg hc3, if_neg hc12, if_neg hc13, hfind]
        rw [htc]
        refine ⟨by simp [h12, h13, h23], by simp, ?_, ?_, ?_⟩
        · intro h; rcases h with h | h
          · exact absurd h h12
          · exact absurd h h13
        · intro _ _ h23'; exact absurd h23' h23
        · intro _ _ _
          refine ⟨rfl, nibbleCode (buffer (i + 9)), i, ?_⟩
          unfold addError
          rw [if_pos hfull]

/-- Receive buffer for the C4 witness: copy 1 is all zeros while copies 2
and 3 agree (all bytes 1), so the majority vote decodes copy 2. -/
def wTripleBuf (k : Nat) : Nat := if k < 9 then 0 else 1

/-- Witness for triple_vote: with copy 1 distinct and copies 2 and 3 equal,
the decoded frame is copy 2. -/
theorem triple_vote_witness :
    (tripleCheck wTripleBuf []).2.1 = copy9 wTripleBuf 9 :=
  (triple_vote wTripleBuf [] (by decide)).2.2.2.1 (by decide) (by decide) (by decide)

/- The bounded-wait byte read tkr_getByte (main.c lines 546-556). -/

/-- Environment seen by the tkr_getByte polling loop: at its k-th iteration
the loop observes the UART receive-FIFO status, the byte at the head of the
FIFO, and the current value of time(). -/
structure UartEnv where
  fifoNonEmpty : Nat → Bool
  rxData : Nat → Nat
  timeAt : Nat → Nat

/-- The uint32 subtraction time() - startTime of main.c line 548. -/
def sub32 (a b : Nat) : Nat :=
  (a % 4294967296 + 4294967296 - b % 4294967296) % 4294967296

/-- The polling loop of tkr_getByte, run with explicit fuel (first recursion
argument) from iteration k (second argument): while the FIFO stays empty it
compares the elapsed time against TKR_READ_TIMEOUT and, when the timeout is
exceeded, logs one ReadTimeout error whose value0 is the low byte of the
elapsed time and returns the substitute byte 0x00; when a byte is available
it returns that byte with the log untouched. -/
def tkrGetByteAux (env : UartEnv) (startTime flag : Nat) (errs : List ErrorRec) :
    Nat → Nat → Option (Nat × List ErrorRec)
  | 0, _ => none
  | fuel + 1, k =>
    if env.fifoNonEmpty k then some (env.rxData k % 256, errs)
    else if sub32 (env.timeAt k) startTime > TKR_READ_TIMEOUT then
      some (0, addError errs ERR_TKR_READ_TIMEOUT
                 (sub32 (env.timeAt k) startTime % 256) flag)
    else tkrGetByteAux env startTime flag errs fuel (k + 1)

/-- A whole call of tkr_getByte: the polling loop started at iteration 0. -/
def tkrGetByteRun (env : UartEnv) (startTime flag : Nat) (errs : List ErrorRec)
    (fuel : Nat) : Option (Nat × List ErrorRec) :=
  tkrGetByteAux env startTime flag errs fuel 0

theorem tkrGetByteAux_timeout (env : UartEnv) (startTime flag : Nat)
    (errs : List ErrorRec) :
    ∀ n i, (∀ j, i ≤ j → j ≤ i + n → env.fifoNonEmpty j = false) →
      (∀ j, i ≤ j → j < i + n → sub32 (env.timeAt j) startTime ≤ TKR_READ_TIMEOUT) →
      sub32 (env.timeAt (i + n)) startTime > TKR_READ_TIMEOUT →
      tkrGetByteAux env startTime flag errs (n + 1) i =
        some (0, addError errs ERR_TKR_READ_TIMEOUT
                   (sub32 (env.timeAt (i + n)) startTime % 256) flag) := by
  intro n
  induction n with
  | zero =>
    intro i hf _ hk
    have hfi : ¬ env.fifoNonEmpty i = true := by
      rw [hf i le_rfl (by omega)]; exact Bool.false_ne_true
    rw [Nat.add_zero] at hk
    unfold tkrGetByteAux
    rw [if_neg hfi, if_pos hk, Nat.add_zero]
  | succ n ih =>
    intro i hf hpre hk
    have hfi : ¬ env.fifoNonEmpty i = true := by
      rw [hf i le_rfl (by omega)]; exact Bool.false_ne_true
    have hei : ¬ sub32 (env.timeAt i) startTime > TKR_READ_TIMEOUT := by
      have := hpre i le_rfl (by omega)
      omega
    have hstep := ih (i + 1)
      (fun j h1 h2 => hf j (by omega) (by omega))
      (fun j h1 h2 => hpre j (by omega) (by omega))
      (by rw [show i + 1 + n = i + (n + 1) from by omega]; exact hk)
    rw [show i + 1 + n = i + (n + 1) from by omega] at hstep
    unfold tkrGetByteAux
    rw [if_neg hfi, if_neg hei]
    exact hstep

/-- C7: the tkr_getByte polling loop terminates as soon as the elapsed time
(time() - startTime in uint32 arithmetic) exceeds TKR_READ_TIMEOUT = 31
ticks with no byte available: at the first such iteration k it returns the
substitute byte 0x00 after logging exactly one ReadTimeout fault, so a call
running in an environment whose clock eventually advances past the timeout
never blocks forever. -/
theorem tkr_getByte_timeout (env : UartEnv) (startTime flag k : Nat)
    (errs : List ErrorRec)
    (hfifo : ∀ j, j ≤ k → env.fifoNonEmpty j = false)
    (hpre : ∀ j, j < k → sub32 (env.timeAt j) startTime ≤ TKR_READ_TIMEOUT)
    (hk : sub32 (env.timeAt k) startTime > TKR_READ_TIMEOUT) :
    tkrGetByteRun env startTime flag errs (k + 1) =
      some (0, addError errs ERR_TKR_READ_TIMEOUT
                 (sub32 (env.timeAt k) startTime % 256) flag) := by
  have h := tkrGetByteAux_timeout env startTime flag errs k 0
    (fun j h1 h2 => hfifo j (by omega))
    (fun j h1 h2 => hpre j (by omega))
    (by rw [Nat.zero_add]; exact hk)
  rw [Nat.zero_add] at h
  exact h

/-- Environment for the C7 witness: the FIFO never delivers a byte and
time() advances by one tick per loop iteration from startTime 0. -/
def wUart : UartEnv := ⟨fun _ => false, fun _ => 0, fun t => t⟩

/-- Witness for tkr_getByte_timeout: the loop exits at iteration 32 with the
substitute byte 0 and one logged ReadTimeout record. -/
theorem tkr_getByte_timeout_witness :
    tkrGetByteRun wUart 0 7 [] 33 =
      some (0, addError [] ERR_TKR_READ_TIMEOUT
                 (sub32 (wUart.timeAt 32) 0 % 256) 7) :=
  tkr_getByte_timeout wUart 0 7 32 [] (by decide) (by decide) (by decide)

/- Event serialisation into the 256-byte output buffer
(main.c lines 1587-1615).  nDataReady is a uint8, so every post-increment
index is taken modulo 256; the model records the sequence of indices that
are written. -/

/-- One board record at serialisation time: the stored hit-list byte count
and the hit-list pointer (none models a NULL pointer from a failed
allocation). -/
structure BoardOut where
  nBytes : Nat
  hitList : Option (List Nat)

/-- k consecutive writes dataOut[nDataReady++] starting from the uint8 value
n: the indices written are n, n+1, ... reduced modulo 256, and the final
value of nDataReady is (n + k) % 256. -/
def pushWrites (n : Nat) (ws : List Nat) (k : Nat) : Nat × List Nat :=
  ((n + k) % 256, ws ++ (List.range k).map fun i => (n + i) % 256)

/-- The board loop: for each board, if nDataReady > MAX_DATA_OUT - (5 +
nBytes) (int arithmetic) the loop breaks after logging EventTooBig;
otherwise it writes the board address byte followed by either the 6-byte
inline placeholder (NULL hit list) or the length byte and the nBytes
hit-list bytes. -/
def evtBoardsOut : Nat → List Nat → List BoardOut → Nat × List Nat
  | n, ws, [] => (n, ws)
  | n, ws, bh :: rest =>
    if (n : Int) > (MAX_DATA_OUT : Int) - (5 + (bh.nBytes : Int)) then (n, ws)
    else
      match bh.hitList with
      | none => evtBoardsOut (pushWrites n ws 7).1 (pushWrites n ws 7).2 rest
      | some _ =>
          evtBoardsOut (pushWrites n ws (2 + bh.nBytes)).1
            (pushWrites n ws (2 + bh.nBytes)).2 rest

/-- Whole event serialisation, reduced to the write indices: the 52 header
bytes are stored at indices 0..51 with nDataReady left at 52, then the
board loop runs, then the four FINI trailer bytes are appended.  The result
is the final value of nDataReady and the list of all indices written. -/
def evtSerializeWrites (boards : List BoardOut) : Nat × List Nat :=
  pushWrites (evtBoardsOut 52 (List.range 52) boards).1
    (evtBoardsOut 52 (List.range 52) boards).2 4

theorem pushWrites_bound (n : Nat) (ws : List Nat) (k : Nat)
    (hws : ∀ i ∈ ws, i < 256) :
    (pushWrites n ws k).1 < 256 ∧ ∀ i ∈ (pushWrites n ws k).2, i < 256 := by
  constructor
  · exact Nat.mod_lt _ (by omega)
  · intro i hi
    rcases List.mem_append.mp hi with h | h
    · exact hws i h
    · obtain ⟨j, _, rfl⟩ := List.mem_map.mp h
      exact Nat.mod_lt _ (by omega)

theorem evtBoardsOut_bound (boards : List BoardOut) :
    ∀ n ws, n < 256 → (∀ i ∈ ws, i < 256) →
      (evtBoardsOut n ws boards).1 < 256 ∧
      ∀ i ∈ (evtBoardsOut n ws boards).2, i < 256 := by
  induction boards with
  | nil => intro n ws hn hws; exact ⟨hn, hws⟩
  | cons bh rest ih =>
    intro n ws hn hws
    unfold evtBoardsOut
    split
    · exact ⟨hn, hws⟩
    · split
      · have h := pushWrites_bound n ws 7 hws
        exact ih _ _ h.1 h.2
      · have h := pushWrites_bound n ws (2 + bh.nBytes) hws
        exact ih _ _ h.1 h.2

/-- C9: for every board configuration (at most MAX_TKR_BOARDS boards, each
hit list at most MAX_TKR_BOARD_BYTES bytes), every byte of the event record
- the 52-byte header, the per-board address, length and hit-list bytes, and
the 4-byte FINI trailer - is stored at an index strictly below MAX_DATA_OUT
= 256, and the running length nDataReady (a uint8) never exceeds
MAX_DATA_OUT.  This holds because nDataReady wraps modulo 256: when the
boards fill the buffer to the brim the trailer indices wrap to the start of
the buffer rather than running past the end. -/
theorem evt_serialize_bounds (boards : List BoardOut)
    (hn : boards.length ≤ MAX_TKR_BOARDS)
    (hb : ∀ b ∈ boards, b.nBytes ≤ MAX_TKR_BOARD_BYTES) :
    (∀ i ∈ (evtSerializeWrites boards).2, i < MAX_DATA_OUT) ∧
    (evtSerializeWrites boards).1 ≤ MAX_DATA_OUT := by
  have hws : ∀ i ∈ List.range 52, i < 256 := by
    intro i hi
    have := List.mem_range.mp hi
    omega
  have h := evtBoardsOut_bound boards 52 (List.range 52) (by omega) hws
  have h2 := pushWrites_bound (evtBoardsOut 52 (List.range 52) boards).1
    (evtBoardsOut 52 (List.range 52) boards).2 4 h.2
  exact ⟨fun i hi => h2.2 i hi, le_of_lt h2.1⟩

/-- Board configuration for the C9 witness: a single 199-byte hit list,
which drives nDataReady to 253 before the trailer so that the last trailer
byte wraps to index 0. -/
def wBoards : List BoardOut := [⟨199, some (List.replicate 199 0)⟩]

/-- Witness for evt_serialize_bounds at the near-full configuration. -/
theorem evt_serialize_bounds_witness :
    (evtSerializeWrites wBoards).1 ≤ MAX_DATA_OUT :=
  (evt_serialize_bounds wBoards (by decide) (by decide)).2

/- The tracker packet reader getTrackerData (main.c lines 602-793).  The
bytes delivered by the successive tkr_getByte calls are modelled as a
function from read position to byte value (a tkr_getByte timeout simply
delivers the substitute byte 0x00 at its position); heap allocation of the
hit lists is modelled as succeeding. -/

/-- Byte delivered by the tracker stream at a given read position. -/
def byteAt (input : Nat → Nat) (k : Nat) : Nat := input k % 256

/-- One entry of tkrData.boardHits: hit-list byte count and hit list. -/
structure BoardHit where
  nBytes : Nat
  hitList : List Nat
deriving DecidableEq

/-- The global struct TkrData. -/
structure TkrData where
  triggerCount : Nat
  cmdCount : Nat
  trgPattern : Nat
  nTkrBoards : Nat
  boardHits : List BoardHit
deriving DecidableEq

/-- The state getTrackerData reads and writes: the stream position plus the
globals errors, tkrData, nDataReady/dataOut (modelled as the list of
(index, value) writes), tkrCmdCount and the housekeeping staging area. -/
structure TkrSt where
  pos : Nat
  errors : List ErrorRec
  tkrData : TkrData
  nDataReady : Nat
  dataWrites : List (Nat × Nat)
  tkrCmdCount : Nat
  nTkrHouseKeeping : Nat
  tkrHouseKeepingFPGA : Nat
  tkrHouseKeeping : List Nat
deriving DecidableEq

/-- The 5-byte default (placeholder) ASIC hit list 0xE7, board, 0, tag,
0x30 built on every tracker-read failure path. -/
def placeholderHit (brd tag : Nat) : BoardHit := ⟨5, [0xE7, brd, 0, tag, 0x30]⟩

/-- The for-loops that fill boardHits[0..n-1] with placeholder hit lists. -/
def setPlaceholders (bh : List BoardHit) (n tag : Nat) : List BoardHit :=
  (List.range n).foldl (fun acc brd => acc.set brd (placeholderHit brd tag)) bh

/-- Accumulator of the per-board read loop of the event-data branch. -/
structure EvtAcc where
  pos : Nat
  rc : Nat
  hits : List BoardHit
  errs : List ErrorRec

/-- Tail of one board read once the length, identifier and address bytes
passed the formal checks (main.c lines 711-738): log BadFPGA when the
address byte exceeds 8, log LyrOrder when the layer is out of order, cap
the stored byte count at MAX_TKR_BOARD_BYTES (logging TkrTooBig), then read
the remaining nBrdBytes - 2 hit-list bytes, storing only those whose index
stays below MAX_TKR_BOARD_BYTES. -/
def evtBoardHits (input : Nat → Nat) (a : EvtAcc) (brd nBrdBytes IDbyte byte2 : Nat) :
    EvtAcc :=
  let errs1 := if byte2 > 8 then addError a.errs ERR_TKR_BAD_FPGA byte2 brd else a.errs
  let rc1 := if byte2 > 8 then 59 else a.rc
  let lyr := byte2 % 8
  let errs2 := if lyr ≠ brd then addError errs1 ERR_TKR_LYR_ORDER lyr brd else errs1
  let nB := if nBrdBytes > MAX_TKR_BOARD_BYTES then MAX_TKR_BOARD_BYTES else nBrdBytes
  let errs3 := if nBrdBytes > MAX_TKR_BOARD_BYTES
               then addError errs2 ERR_TKR_TOO_BIG nBrdBytes lyr else errs2
  let body := ((List.range (nBrdBytes - 2)).map fun i =>
                byteAt input (a.pos + 3 + i)).take (MAX_TKR_BOARD_BYTES - 2)
  { pos := a.pos + 3 + (nBrdBytes - 2), rc := rc1,
    hits := a.hits.set lyr ⟨nB, IDbyte :: byte2 :: body⟩,
    errs := errs3 }

/-- One iteration of the per-board loop (main.c lines 680-739): a hit-list
length below 4 or a hit-list identifier other than 0xE7 substitutes a
placeholder for this board only and continues with the next board. -/
def evtBoardStep (input : Nat → Nat) (a : EvtAcc) (brd : Nat) : EvtAcc :=
  if byteAt input a.pos < 4 then
    { pos := a.pos + 1, rc := 57,
      hits := a.hits.set brd (placeholderHit brd 0x04),
      errs := addError a.errs ERR_TKR_BOARD_SHORT (byteAt input a.pos) brd }
  else if byteAt input (a.pos + 1) ≠ 0xE7 then
    { pos := a.pos + 2, rc := 58,
      hits := a.hits.set brd (placeholderHit brd 0x05),
      errs := addError a.errs ERR_TKR_BAD_BOARD_ID (byteAt input (a.pos + 1)) brd }
  else
    evtBoardHits input a brd (byteAt input a.pos) (byteAt input (a.pos + 1))
      (byteAt input (a.pos + 2))

/-- The event-data branch (main.c lines 636-739).  A declared length other
than 5 logs BadLength, synthesises the placeholder event and returns 55.
Otherwise the trigger count, command count and board-count/pattern byte are
read; a board count differing from the configured one logs NumBoards,
synthesises placeholders and returns 56; otherwise the per-board loop
runs. -/
def gtdEvent (input : Nat → Nat) (len numTkrBrds : Nat) (s : TkrSt) : Nat × TkrSt :=
  if len ≠ 5 then
    (55, { s with
      errors := addError s.errors ERR_TKR_BAD_LENGTH TKR_EVT_DATA len,
      tkrData := { triggerCount := 0, cmdCount := 0, trgPattern := 0,
                   nTkrBoards := numTkrBrds,
                   boardHits := setPlaceholders s.tkrData.boardHits numTkrBrds 0x02 } })
  else
    let tc := byteAt input s.pos * 256 + byteAt input (s.pos + 1)
    let cc := byteAt input (s.pos + 2)
    let nb := byteAt input (s.pos + 3)
    let trgPattern := nb / 64 * 64
    let nBoards := nb % 64
    if nBoards ≠ numTkrBrds then
      (56, { s with
        pos := s.pos + 4,
        errors := addError s.errors ERR_TKR_NUM_BOARDS nBoards trgPattern,
        tkrData := { triggerCount := tc, cmdCount := cc, trgPattern := trgPattern,
                     nTkrBoards := numTkrBrds,
                     boardHits := setPlaceholders s.tkrData.boardHits numTkrBrds 0x03 } })
    else
      let a := (List.range nBoards).foldl (evtBoardStep input)
        { pos := s.pos + 4, rc := 0, hits := s.tkrData.boardHits, errs := s.errors }
      (a.rc, { s with
        pos := a.pos, errors := a.errs,
        tkrData := { triggerCount := tc, cmdCount := cc, trgPattern := trgPattern,
                     nTkrBoards := nBoards, boardHits := a.hits } })

/-- The housekeeping-data branch (main.c lines 740-766).  A declared length
other than payload + 6 logs BadNData and recomputes the payload length as
len - 6 in uint8 arithmetic; the command count, FPGA and echoed command
bytes are read with their formal checks; the payload is stored (at most
TKRHOUSE_LEN bytes) and the final stored byte is checked against the fixed
trailer 0x0F.  (With an empty payload the C reads the trailer check one
byte before the start of the staging array; the model clamps that read to
index 0 of the freshly stored list.) -/
def gtdHouse (input : Nat → Nat) (len tkrCmdCode : Nat) (s : TkrSt) : Nat × TkrSt :=
  let nData0 := byteAt input s.pos
  let errs0 := if len ≠ nData0 + 6 then addError s.errors ERR_TKR_BAD_NDATA len nData0
               else s.errors
  let nData := if len ≠ nData0 + 6 then (len + 256 - 6) % 256 else nData0
  let cc := byteAt input (s.pos + 1) * 256 + byteAt input (s.pos + 2)
  let fpga := byteAt input (s.pos + 3)
  let errs1 := if fpga > 8 then addError errs0 ERR_TKR_BAD_FPGA tkrCmdCode fpga else errs0
  let cmdEcho := byteAt input (s.pos + 4)
  let errs2 := if cmdEcho ≠ tkrCmdCode then addError errs1 ERR_TKR_BAD_ECHO cmdEcho tkrCmdCode
               else errs1
  let stored := ((List.range nData).map fun i => byteAt input (s.pos + 5 + i)).take TKRHOUSE_LEN
  let nHouse := min nData TKRHOUSE_LEN
  let errs3 := if stored.getD (nHouse - 1) 0 ≠ 0x0F
               then addError errs2 ERR_TKR_BAD_TRAILER tkrCmdCode (stored.getD (nHouse - 1) 0)
               else errs2
  (0, { s with
        pos := s.pos + 5 + nData, errors := errs3, tkrCmdCount := cc,
        nTkrHouseKeeping := nHouse, tkrHouseKeepingFPGA := fpga, tkrHouseKeeping := stored })

/-- The command-echo branch (main.c lines 767-781): a declared length other
than 4 logs BadLength; three bytes are read into dataOut and the command
count; an echoed command code differing from the code just sent logs
BadEcho and makes the call report failure (return code 1). -/
def gtdEcho (input : Nat → Nat) (len tkrCmdCode : Nat) (s : TkrSt) : Nat × TkrSt :=
  let errs0 := if len ≠ 4 then addError s.errors ERR_TKR_BAD_LENGTH TKR_ECHO_DATA len
               else s.errors
  let b0 := byteAt input s.pos
  let b1 := byteAt input (s.pos + 1)
  let b2 := byteAt input (s.pos + 2)
  let errs1 := if b2 ≠ tkrCmdCode then addError errs0 ERR_TKR_BAD_ECHO b2 tkrCmdCode else errs0
  ((if b2 ≠ tkrCmdCode then 1 else 0),
   { s with
     pos := s.pos + 3, errors := errs1, nDataReady := 3,
     dataWrites := s.dataWrites ++ [(0, b0), (1, b1), (2, b2)],
     tkrCmdCount := b0 * 256 + b1 })

/-- The unknown-identifier branch (main.c lines 782-791): log BadIdentifier
and drain len following bytes into dataOut so the link stays in sync.  (The
cap of len at 15 in the source is dead: the drain loop bound nDataReady was
assigned the original len before the cap.) -/
def gtdUnknown (input : Nat → Nat) (len IDcode : Nat) (s : TkrSt) : Nat × TkrSt :=
  (0, { s with
        errors := addError s.errors ERR_TKR_BAD_ID IDcode len,
        nDataReady := len, pos := s.pos + len,
        dataWrites := s.dataWrites ++ (List.range len).map fun i => (i, byteAt input (s.pos + i)) })

/-- Dispatch on the received packet identifier (main.c lines 636, 740, 767
and 782). -/
def gtdDispatch (input : Nat → Nat) (IDcode len numTkrBrds tkrCmdCode : Nat)
    (s : TkrSt) : Nat × TkrSt :=
  if IDcode = TKR_EVT_DATA then gtdEvent input len numTkrBrds s
  else if IDcode = TKR_HOUSE_DATA then gtdHouse input len tkrCmdCode s
  else if IDcode = TKR_ECHO_DATA then gtdEcho input len tkrCmdCode s
  else gtdUnknown input len IDcode s

/-- Embedding of getTrackerData: read the declared length and identifier
bytes, handle an identifier that differs from the caller's expectation
(return 54 with a synthesised placeholder event when event data was
expected, return 53 when an unexpected event packet arrives, otherwise log
WrongDataType and fall through), then branch on the received identifier. -/
def getTrackerData (input : Nat → Nat) (idExpected numTkrBrds tkrCmdCode : Nat)
    (s0 : TkrSt) : Nat × TkrSt :=
  let len := byteAt input s0.pos
  let IDcode := byteAt input (s0.pos + 1)
  let s : TkrSt := { s0 with pos := s0.pos + 2 }
  if IDcode ≠ idExpected ∧ idExpected ≠ 0 then
    let s1 : TkrSt :=
      { s with errors := addError s.errors ERR_TRK_WRONG_DATA_TYPE IDcode idExpected }
    if idExpected = TKR_EVT_DATA then
      (54, { s1 with
        tkrData := { triggerCount := 0, cmdCount := 0, trgPattern := 0,
                     nTkrBoards := numTkrBrds,
                     boardHits := setPlaceholders s1.tkrData.boardHits numTkrBrds 0x01 } })
    else
      gtdDispatch input IDcode len numTkrBrds tkrCmdCode s1
  else if IDcode ≠ idExpected ∧ idExpected = 0 ∧ IDcode = TKR_EVT_DATA then
    (53, { s with errors := addError s.errors ERR_TRK_WRONG_DATA_TYPE IDcode idExpected })
  else
    gtdDispatch input IDcode len numTkrBrds tkrCmdCode s

/- List update helpers for the placeholder loops. -/

theorem list_get?_set_self {α : Type} (l : List α) (i : Nat) (a : α)
    (h : i < l.length) : (l.set i a).get? i = some a := by
  induction l generalizing i with
  | nil => simp at h
  | cons x t ih =>
    cases i with
    | zero => rfl
    | succ j => exact ih j (by simpa using h)

theorem list_get?_set_other {α : Type} (l : List α) (i j : Nat) (a : α)
    (h : i ≠ j) : (l.set i a).get? j = l.get? j := by
  induction l generalizing i j with
  | nil => rfl
  | cons x t ih =>
    cases i with
    | zero =>
      cases j with
      | zero => exact absurd rfl h
      | succ k => rfl
    | succ i2 =>
      cases j with
      | zero => rfl
      | succ k => exact ih i2 k fun hh => h (by rw [hh])

theorem setPlaceholders_succ (bh : List BoardHit) (n tag : Nat) :
    setPlaceholders bh (n + 1) tag =
      (setPlaceholders bh n tag).set n (placeholderHit n tag) := by
  unfold setPlaceholders
  rw [List.range_succ, List.foldl_append]
  rfl

theorem setPlaceholders_length (bh : List BoardHit) (tag : Nat) :
    ∀ n, (setPlaceholders bh n tag).length = bh.length := by
  intro n
  induction n with
  | zero => rfl
  | succ m ih => rw [setPlaceholders_succ, List.length_set, ih]

theorem setPlaceholders_get (bh : List BoardHit) (tag : Nat) :
    ∀ n brd, brd < n → n ≤ bh.length →
      (setPlaceholders bh n tag).get? brd = some (placeholderHit brd tag) := by
  intro n
  induction n with
  | zero => intro brd h _; omega
  | succ m ih =>
    intro brd hb hlen
    rw [setPlaceholders_succ]
    by_cases hbm : brd = m
    · subst hbm
      exact list_get?_set_self _ _ _ (by rw [setPlaceholders_length]; omega)
    · rw [list_get?_set_other _ _ _ _ fun hh => hbm hh.symm]
      exact ih brd (by omega) (by omega)

/-- C6: when getTrackerData is called expecting event data (0xD3), the
received identifier is 0xD3 but the declared length differs from 5, the
error log is not full and allocation succeeds, the call consumes only the
two framing bytes, appends exactly one BadLength record, synthesises a
placeholder event whose board count is the configured count with the 5-byte
hit list 0xE7, board, 0, 0x02, 0x30 for every board, and returns the
distinct nonzero status 55 so the caller does not parse further. -/
theorem getTrackerData_badLength (input : Nat → Nat) (numTkrBrds tkrCmdCode : Nat)
    (s : TkrSt)
    (hid : byteAt input (s.pos + 1) = TKR_EVT_DATA)
    (hlen : byteAt input s.pos ≠ 5)
    (hfull : s.errors.length < MXERR)
    (hbrds : numTkrBrds ≤ s.tkrData.boardHits.length) :
    (getTrackerData input TKR_EVT_DATA numTkrBrds tkrCmdCode s).1 = 55 ∧
    (getTrackerData input TKR_EVT_DATA numTkrBrds tkrCmdCode s).2.errors =
      s.errors ++ [⟨ERR_TKR_BAD_LENGTH, TKR_EVT_DATA, byteAt input s.pos⟩] ∧
    (getTrackerData input TKR_EVT_DATA numTkrBrds tkrCmdCode s).2.tkrData.nTkrBoards =
      numTkrBrds ∧
    (∀ brd, brd < numTkrBrds →
      (getTrackerData input TKR_EVT_DATA numTkrBrds tkrCmdCode s).2.tkrData.boardHits.get?
          brd = some ⟨5, [0xE7, brd, 0, 0x02, 0x30]⟩) ∧
    (getTrackerData input TKR_EVT_DATA numTkrBrds tkrCmdCode s).2.pos = s.pos + 2 := by
  have hres : getTrackerData input TKR_EVT_DATA numTkrBrds tkrCmdCode s =
      (55, { s with
        pos := s.pos + 2,
        errors := addError s.errors ERR_TKR_BAD_LENGTH TKR_EVT_DATA (byteAt input s.pos),
        tkrData := { triggerCount := 0, cmdCount := 0, trgPattern := 0,
                     nTkrBoards := numTkrBrds,
                     boardHits := setPlaceholders s.tkrData.boardHits numTkrBrds 0x02 } }) := by
    unfold getTrackerData
    rw [hid]
    rw [if_neg (by simp [TKR_EVT_DATA]), if_neg (by simp [TKR_EVT_DATA])]
    unfold gtdDispatch
    rw [if_pos rfl]
    unfold gtdEvent
    rw [if_pos hlen]
  rw [hres]
  refine ⟨rfl, ?_, rfl, ?_, rfl⟩
  · show addError s.errors ERR_TKR_BAD_LENGTH TKR_EVT_DATA (byteAt input s.pos) = _
    unfold addError
    rw [if_pos hfull]
  · intro brd hb
    exact setPlaceholders_get s.tkrData.boardHits 0x02 numTkrBrds brd hb hbrds

/-- Byte stream for the C6 witness: declared length 7, identifier 0xD3. -/
def wGtdInput (k : Nat) : Nat := if k = 0 then 7 else if k = 1 then 0xD3 else 0

/-- Initial state for the C6 witness: empty log, eight empty board slots. -/
def wGtdSt : TkrSt :=
  ⟨0, [], ⟨0, 0, 0, 0, List.replicate 8 ⟨0, []⟩⟩, 0, [], 0, 0, 0, []⟩

/-- Witness for getTrackerData_badLength: with two configured boards the
call returns 55 and board 1 carries the tagged placeholder hit list. -/
theorem getTrackerData_badLength_witness :
    (getTrackerData wGtdInput TKR_EVT_DATA 2 0 wGtdSt).1 = 55 ∧
    (getTrackerData wGtdInput TKR_EVT_DATA 2 0 wGtdSt).2.tkrData.boardHits.get? 1 =
      some ⟨5, [0xE7, 1, 0, 0x02, 0x30]⟩ := by
  have h := getTrackerData_badLength wGtdInput 2 0 wGtdSt (by decide) (by decide)
    (by decide) (by decide)
  exact ⟨h.1, h.2.2.2.1 1 (by decide)⟩

end AesopLiteDAQ
